import Mathlib

/-!
Verification development for the `amazon-cloaker` repository.

The repository is a Netlify serverless endpoint (two variants of the same
handler: `netlify/functions/go.js` and an earlier unnamed variant) that
extracts an Amazon ASIN from the request, resolves product metadata and
renders an HTML interstitial.  This file gives a shallow embedding of the
pure logic of both variants:

* ASIN extraction (`extractASINFromURL`, shared verbatim by both files,
  and the per-variant direct-path extraction);
* the request handlers, with the outcomes of the outbound HTTP calls
  (PA-API request, scraping request) supplied as explicit inputs, since
  those are I/O;
* the PA-API response parsing and the scraping normalization/fallbacks;
* the AWS Signature Version 4 string construction, with the crypto
  primitives from node's `crypto` module (an external library) supplied
  as parameters.

JavaScript strings are modelled as `List Char` / `String`; JS regular
expressions used by the source are rigid (fixed-width), so their
leftmost-match semantics is implemented by direct recursion.
-/

namespace Cloaker

/-- ASCII lowering on character codes, as used by the `/i` regexp flag on
the ASCII patterns of the source. -/
def lowerN (n : Nat) : Nat := if 65 ≤ n ∧ n ≤ 90 then n + 32 else n

/-- Case-insensitive character comparison (ASCII folding). -/
def ciCharEq (a b : Char) : Bool := lowerN a.toNat == lowerN b.toNat

/-- The character class `[A-Z0-9]` under the `/i` flag: ASCII letters and
digits. -/
def isAsinChar (c : Char) : Bool :=
  (65 ≤ c.toNat && c.toNat ≤ 90) || (97 ≤ c.toNat && c.toNat ≤ 122) ||
    (48 ≤ c.toNat && c.toNat ≤ 57)

/-- The strict re-validation regexp `/^[A-Z0-9]{10}$/i` of the source. -/
def asinTest (l : List Char) : Bool := l.length == 10 && l.all isAsinChar

/-- Case-insensitive "the literal `lit` is a prefix of `cs`". -/
def ciPrefix : List Char → List Char → Bool
  | [], _ => true
  | _ :: _, [] => false
  | a :: as, b :: bs => ciCharEq a b && ciPrefix as bs

/-- Leftmost match of the rigid regexp "`lit` followed by ten `[A-Z0-9]`
characters (captured)", as in the patterns `/\/dp\/([A-Z0-9]{10})/i`,
`/\/product\/([A-Z0-9]{10})/i`, `/\/gp\/product\/([A-Z0-9]{10})/i` and
`/asin=([A-Z0-9]{10})/i`; returns the capture group. -/
def scanLit (lit : List Char) : List Char → Option (List Char)
  | [] => none
  | c :: t =>
    if ciPrefix lit (c :: t) then
      let cap := ((c :: t).drop lit.length).take 10
      if cap.length == 10 && cap.all isAsinChar then some cap else scanLit lit t
    else scanLit lit t

/-- Leftmost match of `/\/([A-Z0-9]{10})(?:\/|$|\?)/i`: a slash, ten
alphanumerics (captured), bounded by a slash, end of string or `?`. -/
def scanBare : List Char → Option (List Char)
  | [] => none
  | c :: t =>
    if c == '/' then
      let cap := t.take 10
      if cap.length == 10 && cap.all isAsinChar &&
          (match t.drop 10 with
           | [] => true
           | r :: _ => r == '/' || r == '?') then
        some cap
      else scanBare t
    else scanBare t

/-- JS `String.prototype.includes` (case sensitive substring test). -/
def containsSub (n : List Char) : List Char → Bool
  | [] => n.isEmpty
  | c :: t => n.isPrefixOf (c :: t) || containsSub n t

/-- The static short-link table of `extractASINFromURL`. -/
def shortLinkMappings : List (String × String) := [("amzn.to/468mKVM", "B09P21T2GC")]

/-- The ordered pattern list of `extractASINFromURL` (first match wins). -/
def asinPatterns : List (List Char → Option (List Char)) :=
  [ scanLit "/dp/".data
  , scanLit "/product/".data
  , scanLit "/gp/product/".data
  , scanLit "asin=".data
  , scanBare ]

/-- `extractASINFromURL` on character lists: the short-link table is
consulted first (`url.includes(shortUrl)`), then the regexp patterns in
order, each candidate re-validated against `/^[A-Z0-9]{10}$/i`. -/
def extractList (url : List Char) : Option (List Char) :=
  match shortLinkMappings.find? (fun p => containsSub p.1.data url) with
  | some p => some p.2.data
  | none =>
    asinPatterns.findSome? fun pat =>
      match pat url with
      | some m => if asinTest m then some m else none
      | none => none

/-- `extractASINFromURL` from the source (identical in both variants). -/
def extractASINFromURL (url : String) : Option String :=
  (extractList url.data).map String.mk

/-- Removal of the first occurrence of `pat`, as JS
`String.prototype.replace` with a plain-string pattern and empty
replacement. -/
def removeFirst (pat : List Char) : List Char → List Char
  | [] => []
  | c :: t => if pat.isPrefixOf (c :: t) then (c :: t).drop pat.length
              else c :: removeFirst pat t

/-- Direct-path ASIN extraction of `go.js`:
`event.path.replace('/', '').split('/')[0]`, accepted when truthy, of
length 10 and matching `/^[A-Z0-9]{10}$/i`. -/
def pathAsinGo (path : String) : Option String :=
  let stripped := removeFirst "/".data path.data
  let seg := stripped.takeWhile (fun c => c != '/')
  if !seg.isEmpty && seg.length == 10 && asinTest seg then some (String.mk seg)
  else none

/-- Direct-path ASIN extraction of the earlier variant:
`event.path.replace('/go/', '').split('/')[0]`, with the same
acceptance condition. -/
def pathAsinPart (path : String) : Option String :=
  let stripped := removeFirst "/go/".data path.data
  let seg := stripped.takeWhile (fun c => c != '/')
  if !seg.isEmpty && seg.length == 10 && asinTest seg then some (String.mk seg)
  else none

/-- Hexadecimal digit value, as accepted by `decodeURIComponent`. -/
def hexVal (c : Char) : Option Nat :=
  let n := c.toNat
  if 48 ≤ n ∧ n ≤ 57 then some (n - 48)
  else if 65 ≤ n ∧ n ≤ 70 then some (n - 55)
  else if 97 ≤ n ∧ n ≤ 102 then some (n - 87)
  else none

/-- ECMAScript `decodeURIComponent` on character lists.  `%` must be
followed by two hex digits, and escape-sequence bytes must form strict
UTF-8 (no overlong forms, no surrogates, at most U+10FFFF); `none`
models the `URIError` the runtime throws on malformed input. -/
def decodeList : List Char → Option (List Char)
  | [] => some []
  | '%' :: c1 :: c2 :: rest =>
    match hexVal c1, hexVal c2 with
    | some h1, some h2 =>
      let b := 16 * h1 + h2
      if b < 128 then (decodeList rest).map (Char.ofNat b :: ·)
      else if 194 ≤ b ∧ b ≤ 223 then
        match rest with
        | '%' :: d1 :: d2 :: rest2 =>
          match hexVal d1, hexVal d2 with
          | some e1, some e2 =>
            let b2 := 16 * e1 + e2
            if 128 ≤ b2 ∧ b2 ≤ 191 then
              (decodeList rest2).map (Char.ofNat ((b - 192) * 64 + (b2 - 128)) :: ·)
            else none
          | _, _ => none
        | _ => none
      else if 224 ≤ b ∧ b ≤ 239 then
        match rest with
        | '%' :: d1 :: d2 :: '%' :: e1 :: e2 :: rest2 =>
          match hexVal d1, hexVal d2, hexVal e1, hexVal e2 with
          | some f1, some f2, some g1, some g2 =>
            let b2 := 16 * f1 + f2
            let b3 := 16 * g1 + g2
            if 128 ≤ b2 ∧ b2 ≤ 191 ∧ 128 ≤ b3 ∧ b3 ≤ 191 then
              let cp := (b - 224) * 4096 + (b2 - 128) * 64 + (b3 - 128)
              if 2048 ≤ cp ∧ ¬(55296 ≤ cp ∧ cp ≤ 57343) then
                (decodeList rest2).map (Char.ofNat cp :: ·)
              else none
            else none
          | _, _, _, _ => none
        | _ => none
      else if 240 ≤ b ∧ b ≤ 244 then
        match rest with
        | '%' :: d1 :: d2 :: '%' :: e1 :: e2 :: '%' :: f1 :: f2 :: rest2 =>
          match hexVal d1, hexVal d2, hexVal e1, hexVal e2, hexVal f1, hexVal f2 with
          | some g1, some g2, some g3, some g4, some g5, some g6 =>
            let b2 := 16 * g1 + g2
            let b3 := 16 * g3 + g4
            let b4 := 16 * g5 + g6
            if 128 ≤ b2 ∧ b2 ≤ 191 ∧ 128 ≤ b3 ∧ b3 ≤ 191 ∧ 128 ≤ b4 ∧ b4 ≤ 191 then
              let cp := (b - 240) * 262144 + (b2 - 128) * 4096 + (b3 - 128) * 64 + (b4 - 128)
              if 65536 ≤ cp ∧ cp ≤ 1114111 then
                (decodeList rest2).map (Char.ofNat cp :: ·)
              else none
            else none
          | _, _, _, _, _, _ => none
        | _ => none
      else none
    | _, _ => none
  | '%' :: _ => none
  | c :: rest => (decodeList rest).map (c :: ·)

/-- `decodeURIComponent` on strings; `none` models a thrown `URIError`. -/
def decodeURIComponent (s : String) : Option String :=
  (decodeList s.data).map String.mk

/-! ## Data model and configuration -/

/-- The product record shape produced by every resolution strategy. -/
structure ProductRecord where
  title : String
  image : String
  price : String
  asin : String
deriving Repr, DecidableEq

/-- Environment configuration of `go.js`: `ACCESS_KEY`, `SECRET_KEY`,
`PARTNER_TAG` from `process.env` (a variable can be unset, or set to any
string; the empty string is falsy in JS). -/
structure Config where
  accessKey : Option String
  secretKey : Option String
  partnerTag : Option String

/-- JS truthiness of an environment variable (`undefined` and `''` are
falsy). -/
def envTruthy : Option String → Bool
  | none => false
  | some s => !(s == "")

/-- `PARTNER_TAG = process.env.PARTNER_TAG || 'onelastlynx-20'`. -/
def partnerTagOf (cfg : Config) : String :=
  match cfg.partnerTag with
  | some s => if s == "" then "onelastlynx-20" else s
  | none => "onelastlynx-20"

/-- The affiliate URL built by `generateHTML` in `go.js`. -/
def affiliateUrl (cfg : Config) (asin : String) : String :=
  "https://www.amazon.com/dp/" ++ asin ++ "?tag=" ++ partnerTagOf cfg

/-! ## PA-API strategy -/

/-- The fields of a PA-API 5.0 `GetItems` item that the parser reads.
`ItemInfo.Title.DisplayValue`, the three `Images.Primary.*.URL` entries
and `Offers.Listings[0].Price.DisplayAmount` are each collapsed to an
optional string (absent object chains and absent leaves coincide). -/
structure PAItem where
  titleDisplayValue : Option String
  imageLargeURL : Option String
  imageMediumURL : Option String
  imageSmallURL : Option String
  priceDisplayAmount : Option String

/-- The parts of a parsed PA-API 5.0 JSON response the handler inspects:
the `Errors` array, `Output.__type`, and `ItemsResult.Items`. -/
structure PAResponse where
  errors : List String
  outputType : Option String
  items : List PAItem

/-- `parsePAAPI5Response` of `go.js` (lines 277-320): best-effort field
extraction followed by the `title || ...` and `image || ...` fallback
synthesis; price is passed through unchanged. -/
def parsePAAPI5Response (response : PAResponse) (asin : String) : ProductRecord :=
  let title :=
    match response.items with
    | item :: _ => item.titleDisplayValue.getD ""
    | [] => ""
  let image :=
    match response.items with
    | item :: _ =>
      if envTruthy item.imageLargeURL then item.imageLargeURL.getD ""
      else if envTruthy item.imageMediumURL then item.imageMediumURL.getD ""
      else if envTruthy item.imageSmallURL then item.imageSmallURL.getD ""
      else ""
    | [] => ""
  let price :=
    match response.items with
    | item :: _ => item.priceDisplayAmount.getD ""
    | [] => ""
  { title := if title == "" then "Amazon Product " ++ asin else title
    image := if image == "" then
        "https://images-na.ssl-images-amazon.com/images/P/" ++ asin ++ ".01._SL1500_.jpg"
      else image
    price := price
    asin := asin }

/-- Outcome of the outbound PA-API HTTPS request (I/O, supplied as
input): transport error, the 10s timeout, a body `JSON.parse` rejects,
or a parsed response. -/
inductive ApiOutcome where
  | transportError
  | timeout
  | malformedBody
  | response (resp : PAResponse)

/-- The `response.Output.__type.includes('InternalFailure')` check of
`fetchAmazonProductAPI` (guarded by the truthiness of `Output.__type`). -/
def internalFailure (resp : PAResponse) : Bool :=
  match resp.outputType with
  | some t => !(t == "") && containsSub "InternalFailure".data t.data
  | none => false

/-- `fetchAmazonProductAPI` of `go.js`, as a function of the network
outcome: every rejection path (`req.on('error')`, the timeout, a JSON
parse error, a non-empty `Errors` list, an internal-failure marker)
becomes `.error`; otherwise the parsed record is resolved. -/
def fetchAmazonProductAPI (asin : String) (net : ApiOutcome) : Except Unit ProductRecord :=
  match net with
  | .transportError => .error ()
  | .timeout => .error ()
  | .malformedBody => .error ()
  | .response resp =>
    if resp.errors.length > 0 then .error ()
    else if internalFailure resp then .error ()
    else .ok (parsePAAPI5Response resp asin)

/-! ## Scraping strategy -/

/-- The DOM-derived values of one scraping attempt.  `title`, `image`
and `price` are the values of the selector loops of the source after
cleaning/normalization (`''` when no selector matched): the selector
loops run `node-html-parser`, an external library, so their result is an
input of the model.  `parseThrows` is true when that library code throws. -/
structure ScrapeDom where
  title : String
  image : String
  price : String
  parseThrows : Bool

/-- Outcome of the outbound scraping HTTPS request (I/O, supplied as
input). -/
inductive ScrapeOutcome where
  | transportError
  | timeout
  | gotBody (data : String) (dom : ScrapeDom)

/-- The block-page detection of `go.js` line 365:
`data.includes('Robot Check') || data.includes('blocked') || data.length < 1000`. -/
def blockedBody (data : String) : Bool :=
  containsSub "Robot Check".data data.data || containsSub "blocked".data data.data ||
    data.length < 1000

/-- The fully synthesized fallback record of the `go.js` scraper (used
for blocked pages and for parse errors). -/
def scrapeFallbackRecord (asin : String) : ProductRecord :=
  { title := "Amazon Product " ++ asin
    image := "https://images-na.ssl-images-amazon.com/images/P/" ++ asin ++ ".01._SL1500_.jpg"
    price := ""
    asin := asin }

/-- `fetchAmazonProductScraping` of `go.js` (lines 323-532): transport
errors and the 15s timeout reject; a blocked body or a parser exception
resolves the synthesized fallback record; otherwise the DOM-derived
fields are normalized with the `|| fallback` synthesis. -/
def fetchAmazonProductScraping (asin : String) (net : ScrapeOutcome) :
    Except Unit ProductRecord :=
  match net with
  | .transportError => .error ()
  | .timeout => .error ()
  | .gotBody data dom =>
    if blockedBody data then .ok (scrapeFallbackRecord asin)
    else if dom.parseThrows then .ok (scrapeFallbackRecord asin)
    else .ok
      { title := if dom.title == "" then "Amazon Product " ++ asin else dom.title
        image := if dom.image == "" then
            "https://images-na.ssl-images-amazon.com/images/P/" ++ asin ++ ".01._SL1500_.jpg"
          else dom.image
        price := dom.price
        asin := asin }

/-- `fetchAmazonProduct` of the earlier variant (part_000 lines
102-176): no block detection, a parser exception rejects (is not
absorbed), the 5s timeout and transport errors reject, and the fallback
image suffix is `.01._SX300_QL70_.jpg`. -/
def fetchAmazonProductPart (asin : String) (net : ScrapeOutcome) :
    Except Unit ProductRecord :=
  match net with
  | .transportError => .error ()
  | .timeout => .error ()
  | .gotBody _ dom =>
    if dom.parseThrows then .error ()
    else .ok
      { title := if dom.title == "" then "Amazon Product " ++ asin else dom.title
        image := if dom.image == "" then
            "https://images-na.ssl-images-amazon.com/images/P/" ++ asin ++ ".01._SX300_QL70_.jpg"
          else dom.image
        price := dom.price
        asin := asin }

/-! ## Page renderers (template strings of the source) -/

/-- The part of the `generateHTML` template of `go.js` (lines 534-933)
before the first interpolation of the `affiliateUrl` local (the
buy-button `href`), with the interpolation points of the source. -/
def goHtmlPre (pd : ProductRecord) (asin : String) : String :=
  "<!DOCTYPE html>\n<html lang=\"en\">\n<head>\n    <meta charset=\"UTF-8\">\n    <meta name=\"viewport\" content=\"width=device-width, initial-scale=1.0\">\n    \n    <!-- Google Analytics 4 -->\n    <script async src=\"https://www.googletagmanager.com/gtag/js?id=G-V17N2H7EB8\"></script>\n    <script>\n      window.dataLayer = window.dataLayer || [];\n      function gtag()\x7bdataLayer.push(arguments);\x7d\n      gtag(\x27js\x27, new Date());\n      gtag(\x27config\x27, \x27G-V17N2H7EB8\x27, \x7b\n        \x27page_title\x27: \x27Product Redirect - " ++ asin ++ "\x27,\n        \x27page_path\x27: \x27/" ++ asin ++ "\x27\n      \x7d);\n      \n      // Track redirect click event\n      gtag(\x27event\x27, \x27product_view\x27, \x7b\n        \x27event_category\x27: \x27Product\x27,\n        \x27event_label\x27: \x27" ++ asin ++ "\x27,\n        \x27product_title\x27: \x27" ++ pd.title ++ "\x27,\n        \x27product_price\x27: \x27" ++ (if pd.price == "" then "N\x27A" else pd.price) ++ "\x27\n      \x7d);\n    </script>\n    \n    <!-- OpenGraph Tags -->\n    <meta property=\"og:title\" content=\"" ++ pd.title ++ "\">\n    <meta property=\"og:description\" content=\"Check out this amazing deal on Amazon! " ++ (if pd.price == "" then "Great value!" else ("Price: " ++ pd.price)) ++ "\">\n    <meta property=\"og:image\" content=\"" ++ pd.image ++ "\">\n    <meta property=\"og:url\" content=\"https://go.onelastlink.com/" ++ asin ++ "\">\n    <meta property=\"og:type\" content=\"product\">\n    <meta property=\"og:site_name\" content=\"amazon.com\">\n    \n    <!-- Twitter Cards -->\n    <meta name=\"twitter:card\" content=\"summary_large_image\">\n    <meta name=\"twitter:title\" content=\"" ++ pd.title ++ "\">\n    <meta name=\"twitter:description\" content=\"Check out this amazing deal on Amazon!\">\n    <meta name=\"twitter:image\" content=\"" ++ pd.image ++ "\">\n    \n    <title>" ++ pd.title ++ "</title>\n    \n    <style>\n        :root \x7b\n            --amazon-orange: #FF9900;\n            --amazon-dark: #131921;\n            --amazon-light: #EAEDED;\n            --amazon-blue: #146EB4;\n            --brand-cyan: #00E5E0;\n            --text-primary: #0F1111;\n            --text-secondary: #565959;\n            --border-color: #D5D9D9;\n            --price-red: #B12704;\n        \x7d\n        \n        * \x7b\n            margin: 0;\n            padding: 0;\n            box-sizing: border-box;\n        \x7d\n        \n        body \x7b\n            font-family: \x27Amazon Ember\x27, Arial, sans-serif;\n            background: #FFFFFF;\n            min-height: 100vh;\n            display: flex;\n            flex-direction: column;\n        \x7d\n        \n        .header \x7b\n            background: var(--amazon-dark);\n            padding: 8px 20px;\n            display: flex;\n            align-items: center;\n            justify-content: space-between;\n        \x7d\n        \n        .logo-section \x7b\n            display: flex;\n            align-items: center;\n            gap: 15px;\n        \x7d\n        \n        .amazon-logo \x7b\n            color: white;\n            font-size: 22px;\n            font-weight: bold;\n            letter-spacing: -1px;\n        \x7d\n        \n        .divider-line \x7b\n            height: 30px;\n            width: 1px;\n            background: #48525C;\n        \x7d\n        \n        .powered-by \x7b\n            color: #999;\n            font-size: 11px;\n        \x7d\n        \n        .brand-link \x7b\n            color: var(--brand-cyan);\n            text-decoration: none;\n            font-weight: 500;\n        \x7d\n        \n        .main-container \x7b\n            max-width: 1500px;\n            margin: 0 auto;\n            padding: 20px;\n            display: flex;\n            gap: 40px;\n            flex: 1;\n        \x7d\n        \n        .image-section \x7b\n            flex: 0 0 400px;\n        \x7d\n        \n        .image-container \x7b\n            position: sticky;\n            top: 20px;\n            background: white;\n            border: 1px solid var(--border-color);\n            border-radius: 8px;\n            padding: 20px;\n            text-align: center;\n        \x7d\n        \n        .product-image \x7b\n            width: 100%;\n            max-width: 360px;\n            height: auto;\n            object-fit: contain;\n        \x7d\n        \n        .details-section \x7b\n            flex: 1;\n            max-width: 700px;\n        \x7d\n        \n        .product-title \x7b\n            font-size: 24px;\n            font-weight: 400;\n            line-height: 32px;\n            color: var(--text-primary);\n            margin-bottom: 8px;\n        \x7d\n        \n        .rating-line \x7b\n            display: flex;\n            align-items: center;\n            gap: 8px;\n            margin-bottom: 12px;\n            font-size: 14px;\n        \x7d\n        \n        .stars \x7b\n            color: var(--amazon-orange);\n        \x7d\n        \n        .rating-link \x7b\n            color: var(--amazon-blue);\n            text-decoration: none;\n        \x7d\n        \n        .divider \x7b\n            border: 0;\n            height: 1px;\n            background: #e7e7e7;\n            margin: 12px 0;\n        \x7d\n        \n        .price-box \x7b\n            background: var(--amazon-light);\n            border: 1px solid var(--border-color);\n            border-radius: 8px;\n            padding: 16px;\n            margin: 16px 0;\n        \x7d\n        \n        .price-label \x7b\n            font-size: 14px;\n            color: var(--text-secondary);\n            margin-bottom: 4px;\n        \x7d\n        \n        .price \x7b\n            font-size: 28px;\n            color: var(--price-red);\n            font-weight: 400;\n            line-height: 1.3;\n        \x7d\n        \n        .redirect-box \x7b\n            background: #FFF8E1;\n            border: 1px solid #FFE082;\n            border-radius: 8px;\n            padding: 12px 16px;\n            margin: 16px 0;\n            display: flex;\n            align-items: center;\n            gap: 12px;\n        \x7d\n        \n        .spinner \x7b\n            width: 20px;\n            height: 20px;\n            border: 3px solid #FFA726;\n            border-top: 3px solid transparent;\n            border-radius: 50%;\n            animation: spin 1s linear infinite;\n        \x7d\n        \n        @keyframes spin \x7b\n            to \x7b transform: rotate(360deg); \x7d\n        \x7d\n        \n        .redirect-text \x7b\n            color: var(--text-primary);\n            font-size: 14px;\n        \x7d\n        \n        .countdown \x7b\n            font-weight: 700;\n            color: var(--price-red);\n        \x7d\n        \n        .buy-button \x7b\n            display: block;\n            width: 100%;\n            max-width: 300px;\n            background: var(--amazon-orange);\n            color: #111;\n            text-align: center;\n            padding: 10px 20px;\n            border-radius: 8px;\n            text-decoration: none;\n            font-size: 13px;\n            border: 1px solid #FFA724;\n            transition: background 0.15s;\n            box-shadow: 0 2px 5px rgba(213,217,217,.5);\n            margin-top: 8px;\n        \x7d\n        \n        .buy-button:hover \x7b\n            background: #F7CA00;\n            border-color: #F2C200;\n        \x7d\n        \n        .footer \x7b\n            background: var(--amazon-dark);\n            color: #999;\n            text-align: center;\n            padding: 16px;\n            font-size: 12px;\n            margin-top: auto;\n        \x7d\n        \n        .footer-link \x7b\n            color: var(--brand-cyan);\n            text-decoration: none;\n        \x7d\n        \n        @media (max-width: 968px) \x7b\n            .main-container \x7b\n                flex-direction: column;\n            \x7d\n            \n            .image-section \x7b\n                flex: none;\n            \x7d\n            \n            .image-container \x7b\n                position: relative;\n                top: 0;\n            \x7d\n        \x7d\n        \n        @media (max-width: 480px) \x7b\n            .header \x7b\n                padding: 8px 12px;\n            \x7d\n            \n            .main-container \x7b\n                padding: 12px;\n                gap: 20px;\n            \x7d\n            \n            .product-title \x7b\n                font-size: 20px;\n                line-height: 28px;\n            \x7d\n            \n            .price \x7b\n                font-size: 24px;\n            \x7d\n        \x7d\n    </style>\n</head>\n<body>\n    <div class=\"header\">\n        <div class=\"logo-section\">\n            <div class=\"amazon-logo\">amazon</div>\n            <div class=\"divider-line\"></div>\n            <div class=\"powered-by\">\n                via <a href=\"https://onelastlink.com\" class=\"brand-link\">One Last Link</a>\n            </div>\n        </div>\n    </div>\n    \n    <div class=\"main-container\">\n        <div class=\"image-section\">\n            <div class=\"image-container\">\n                <img src=\"" ++ pd.image ++ "\" alt=\"" ++ pd.title ++ "\" class=\"product-image\">\n            </div>\n        </div>\n        \n        <div class=\"details-section\">\n            <h1 class=\"product-title\">" ++ pd.title ++ "</h1>\n            \n            <div class=\"rating-line\">\n                <span class=\"stars\">★★★★★</span>\n                <a href=\"#\" class=\"rating-link\">See customer reviews</a>\n            </div>\n            \n            <hr class=\"divider\">\n            \n            " ++ (if pd.price == "" then "" else ("\n            <div class=\"price-box\">\n                <div class=\"price-label\">Price:</div>\n                <div class=\"price\">" ++ pd.price ++ "</div>\n            </div>\n            ")) ++ "\n            \n            <div class=\"redirect-box\">\n                <div class=\"spinner\"></div>\n                <div class=\"redirect-text\">\n                    Redirecting to Amazon in <span id=\"countdown\" class=\"countdown\">3</span> seconds\n                </div>\n            </div>\n            \n            <a href=\""

/-- The rest of the `generateHTML` template of `go.js` after the
buy-button `href` interpolation; `affUrl` is the `affiliateUrl` local,
interpolated twice more in the analytics script. -/
def goHtmlPost (cfg : Config) (asin : String) : String :=
  let affUrl := affiliateUrl cfg asin
  "\" class=\"buy-button\" id=\"amazon-button\">\n                Continue to Amazon\n            </a>\n            \n            <div style=\"margin-top: 16px; color: var(--text-secondary); font-size: 12px;\">\n                ✓ Secure checkout on Amazon.com<br>\n                ✓ Free returns on eligible items\n            </div>\n        </div>\n    </div>\n    \n    <div class=\"footer\">\n        Secured by <a href=\"https://onelastlink.com\" class=\"footer-link\">One Last Link</a> • Trusted affiliate partner\n    </div>\n    \n    <script>\n        let countdown = 999;\n        const el = document.getElementById(\x27countdown\x27);\n        \n        const timer = setInterval(() => \x7b\n            countdown--;\n            el.textContent = countdown;\n            \n            if (countdown <= 0) \x7b\n                clearInterval(timer);\n                \n                // Track outbound click before redirect\n                gtag(\x27event\x27, \x27click\x27, \x7b\n                  \x27event_category\x27: \x27Outbound Link\x27,\n                  \x27event_label\x27: \x27Amazon Redirect - " ++ asin ++ "\x27,\n                  \x27transport_type\x27: \x27beacon\x27,\n                  \x27event_callback\x27: function() \x7b\n                    window.location.href = \x27" ++ affUrl ++ "\x27;\n                  \x7d\n                \x7d);\n                \n                // Fallback in case callback doesn\x27t fire\n                setTimeout(function() \x7b\n                  window.location.href = \x27" ++ affUrl ++ "\x27;\n                \x7d, 250);\n            \x7d\n        \x7d, 1000);\n        \n        // Track manual button clicks\n        document.getElementById(\x27amazon-button\x27).addEventListener(\x27click\x27, function(e) \x7b\n            gtag(\x27event\x27, \x27click\x27, \x7b\n              \x27event_category\x27: \x27Manual Click\x27,\n              \x27event_label\x27: \x27Amazon Button - " ++ asin ++ "\x27\n            \x7d);\n        \x7d);\n    </script>\n</body>\n</html>"

/-- `generateHTML` of `go.js` (lines 534-933): the full template, split
at the first `affiliateUrl` interpolation. -/
def generateHTMLGo (cfg : Config) (pd : ProductRecord) (asin : String) : String :=
  let affUrl := affiliateUrl cfg asin
  goHtmlPre pd asin ++ affUrl ++ goHtmlPost cfg asin

/-- `generateFallbackHTML` of `go.js` (lines 935-995). -/
def generateFallbackHTMLGo (cfg : Config) (asin : String) : String :=
  let affUrl := affiliateUrl cfg asin
  let fbImg := "https://images-na.ssl-images-amazon.com/images/P/" ++ asin ++ ".01._SL1500_.jpg"
  "<!DOCTYPE html>\n<html lang=\"en\">\n<head>\n    <meta charset=\"UTF-8\">\n    <meta name=\"viewport\" content=\"width=device-width, initial-scale=1.0\">\n    \n    <meta property=\"og:title\" content=\"Amazing Amazon Deal\">\n    <meta property=\"og:description\" content=\"Check out this great deal I found on Amazon!\">\n    <meta property=\"og:image\" content=\"" ++ fbImg ++ "\">\n    <meta property=\"og:url\" content=\"https://go.onelastlink.com/" ++ asin ++ "\">\n    <meta property=\"og:type\" content=\"product\">\n    <meta property=\"og:site_name\" content=\"amazon.com\">\n    \n    <title>Amazon Deal - " ++ asin ++ "</title>\n    \n    <style>\n        body \x7b\n            font-family: Arial, sans-serif;\n            background: #000000;\n            color: white;\n            text-align: center;\n            padding: 50px;\n            margin: 0;\n        \x7d\n        .container \x7b\n            max-width: 400px;\n            margin: 0 auto;\n            background: rgba(255, 255, 255, 0.1);\n            padding: 30px;\n            border-radius: 15px;\n        \x7d\n        .button \x7b\n            display: inline-block;\n            background: #0F9AA0;\n            color: white;\n            padding: 12px 24px;\n            text-decoration: none;\n            border-radius: 5px;\n            font-weight: bold;\n            margin-top: 20px;\n        \x7d\n    </style>\n</head>\n<body>\n    <div class=\"container\">\n        <h2>🎯 Redirecting to Amazon...</h2>\n        <p>Taking you to your deal...</p>\n        <a href=\"" ++ affUrl ++ "\" class=\"button\">Go to Amazon</a>\n    </div>\n    <script>\n        setTimeout(() => \x7b\n            window.location.href = \x27" ++ affUrl ++ "\x27;\n        \x7d, 2000);\n    </script>\n</body>\n</html>"

/-- `generateErrorHTML` of `go.js` (lines 997-1010), the 404 body. -/
def generateErrorHTMLGo : String :=
  "\n    <!DOCTYPE html>\n    <html>\n    <head><title>Invalid Link</title></head>\n    <body style=\"text-align: center; padding: 50px; font-family: Arial, sans-serif;\">\n      <h2>❌ Invalid Amazon Link</h2>\n      <p>Please use one of these formats:</p>\n      <p><code>go.onelastlink.com/B09P21T2GC</code></p>\n      <p><code>go.onelastlink.com/?url=https://amazon.com/dp/B09P21T2GC</code></p>\n    </body>\n    </html>\n  "

/-- The inline 404 body of the earlier variant (part_000 lines 25-36). -/
def errorBodyPart : String :=
  "\n        <!DOCTYPE html>\n        <html>\n        <head><title>Invalid Link</title></head>\n        <body style=\"text-align: center; padding: 50px; font-family: Arial, sans-serif;\">\n          <h2>❌ Invalid Amazon Link</h2>\n          <p>Please use one of these formats:</p>\n          <p><code>go.onelastlink.com/B09P21T2GC</code></p>\n          <p><code>go.onelastlink.com/?url=https://amazon.com/dp/B09P21T2GC</code></p>\n        </body>\n        </html>\n      "

/-- `generateHTML` of the earlier variant (part_000 lines 178-294); its
affiliate tag is the hard-coded literal of that file. -/
def generateHTMLPart (pd : ProductRecord) (asin : String) : String :=
  let affUrl := "https://www.amazon.com/dp/" ++ asin ++ "?tag=onelastlynx-20"
  "<!DOCTYPE html>\n<html lang=\"en\">\n<head>\n    <meta charset=\"UTF-8\">\n    <meta name=\"viewport\" content=\"width=device-width, initial-scale=1.0\">\n    \n    <!-- OpenGraph Tags -->\n    <meta property=\"og:title\" content=\"" ++ pd.title ++ "\">\n    <meta property=\"og:description\" content=\"Check out this amazing deal on Amazon! " ++ (if pd.price == "" then "Great value!" else ("Price: " ++ pd.price)) ++ "\">\n    <meta property=\"og:image\" content=\"" ++ pd.image ++ "\">\n    <meta property=\"og:url\" content=\"https://go.onelastlink.com/" ++ asin ++ "\">\n    <meta property=\"og:type\" content=\"product\">\n    <meta property=\"og:site_name\" content=\"amazon.com\">\n    \n    <!-- Twitter Cards -->\n    <meta name=\"twitter:card\" content=\"summary_large_image\">\n    <meta name=\"twitter:title\" content=\"" ++ pd.title ++ "\">\n    <meta name=\"twitter:description\" content=\"Check out this amazing deal on Amazon!\">\n    <meta name=\"twitter:image\" content=\"" ++ pd.image ++ "\">\n    \n    <title>" ++ pd.title ++ " - Amazon Deal</title>\n    \n    <style>\n        body \x7b\n            font-family: -apple-system, BlinkMacSystemFont, \x27Segoe UI\x27, sans-serif;\n            margin: 0;\n            padding: 0;\n            background: linear-gradient(135deg, #667eea 0%, #764ba2 100%);\n            min-height: 100vh;\n            display: flex;\n            align-items: center;\n            justify-content: center;\n        \x7d\n        .container \x7b\n            max-width: 500px;\n            margin: 0 auto;\n            padding: 40px 20px;\n            text-align: center;\n            background: rgba(255, 255, 255, 0.95);\n            border-radius: 20px;\n            box-shadow: 0 20px 40px rgba(0, 0, 0, 0.1);\n        \x7d\n        .product-image \x7b\n            max-width: 250px;\n            height: auto;\n            border-radius: 10px;\n            margin-bottom: 20px;\n            box-shadow: 0 8px 16px rgba(0,0,0,0.1);\n        \x7d\n        .product-title \x7b\n            color: #333;\n            font-size: 22px;\n            font-weight: 600;\n            margin-bottom: 15px;\n            line-height: 1.3;\n        \x7d\n        .product-price \x7b\n            color: #B12704;\n            font-size: 24px;\n            font-weight: bold;\n            margin-bottom: 20px;\n        \x7d\n        .redirect-text \x7b\n            color: #666;\n            margin-bottom: 25px;\n        \x7d\n        .amazon-button \x7b\n            display: inline-block;\n            background: linear-gradient(135deg, #ff9900, #ffb84d);\n            color: white;\n            padding: 15px 30px;\n            text-decoration: none;\n            border-radius: 50px;\n            font-weight: bold;\n            transition: transform 0.2s;\n            box-shadow: 0 4px 15px rgba(255, 153, 0, 0.3);\n        \x7d\n        .amazon-button:hover \x7b\n            transform: translateY(-2px);\n        \x7d\n        .countdown \x7b\n            font-weight: bold;\n            color: #ff9900;\n        \x7d\n    </style>\n</head>\n<body>\n    <div class=\"container\">\n        <img src=\"" ++ pd.image ++ "\" alt=\"" ++ pd.title ++ "\" class=\"product-image\">\n        <h1 class=\"product-title\">" ++ pd.title ++ "</h1>\n        " ++ (if pd.price == "" then "" else ("<div class=\"product-price\">" ++ pd.price ++ "</div>")) ++ "\n        <p class=\"redirect-text\">\n            Redirecting to Amazon in <span id=\"countdown\" class=\"countdown\">3</span> seconds...\n        </p>\n        <a href=\"" ++ affUrl ++ "\" class=\"amazon-button\">🛒 Shop Now on Amazon</a>\n    </div>\n    \n    <script>\n        let countdown = 3;\n        const countdownElement = document.getElementById(\x27countdown\x27);\n        \n        const timer = setInterval(() => \x7b\n            countdown--;\n            countdownElement.textContent = countdown;\n            \n            if (countdown <= 0) \x7b\n                clearInterval(timer);\n                window.location.href = \x27" ++ affUrl ++ "\x27;\n            \x7d\n        \x7d, 1000);\n    </script>\n</body>\n</html>"

/-- `generateFallbackHTML` of the earlier variant (part_000 lines 296-326). -/
def generateFallbackHTMLPart (asin : String) : String :=
  let affUrl := "https://www.amazon.com/dp/" ++ asin ++ "?tag=onelastlynx-20"
  let fbImg := "https://images-na.ssl-images-amazon.com/images/P/" ++ asin ++ ".01._SX300_QL70_.jpg"
  "<!DOCTYPE html>\n<html lang=\"en\">\n<head>\n    <meta charset=\"UTF-8\">\n    <meta name=\"viewport\" content=\"width=device-width, initial-scale=1.0\">\n    \n    <meta property=\"og:title\" content=\"Amazing Amazon Deal\">\n    <meta property=\"og:description\" content=\"Check out this great deal I found on Amazon!\">\n    <meta property=\"og:image\" content=\"" ++ fbImg ++ "\">\n    <meta property=\"og:url\" content=\"https://go.onelastlink.com/" ++ asin ++ "\">\n    <meta property=\"og:type\" content=\"product\">\n    <meta property=\"og:site_name\" content=\"amazon.com\">\n    \n    <title>Amazon Deal - " ++ asin ++ "</title>\n</head>\n<body style=\"text-align: center; padding: 50px; font-family: Arial, sans-serif;\">\n    <h2>🎯 Redirecting to Amazon...</h2>\n    <p>Taking you to your deal...</p>\n    <a href=\"" ++ affUrl ++ "\" style=\"display: inline-block; background: #ff9900; color: white; padding: 12px 24px; text-decoration: none; border-radius: 5px; font-weight: bold;\">Go to Amazon</a>\n    <script>\n        setTimeout(() => \x7b\n            window.location.href = \x27" ++ affUrl ++ "\x27;\n        \x7d, 2000);\n    </script>\n</body>\n</html>"

/-! ## Request handlers -/

/-- An inbound request: the optional `url` query parameter and the raw
path. -/
structure EventIn where
  urlParam : Option String
  path : String

/-- An HTTP response of the handler (`statusCode`, the single
`Content-Type` header, `body`). -/
structure HttpResponse where
  statusCode : Nat
  contentType : String
  body : String
deriving Repr, DecidableEq

/-- A 200 `text/html` response, the shape every success path returns. -/
def ok200 (b : String) : HttpResponse := ⟨200, "text/html", b⟩

/-- The ASIN-determination phase of the `go.js` handler (lines 10-22):
a truthy `url` parameter is URL-decoded (`.error` models the uncaught
`URIError` on malformed input) and searched with `extractASINFromURL`;
otherwise the raw path is treated as a direct ASIN. -/
def asinOfEventGo (ev : EventIn) : Except Unit (Option String) :=
  match ev.urlParam with
  | some u =>
    if u == "" then .ok (pathAsinGo ev.path)
    else
      match decodeURIComponent u with
      | none => .error ()
      | some d => .ok (extractASINFromURL d)
  | none => .ok (pathAsinGo ev.path)

/-- The ASIN-determination phase of the earlier variant (part_000 lines
5-17). -/
def asinOfEventPart (ev : EventIn) : Except Unit (Option String) :=
  match ev.urlParam with
  | some u =>
    if u == "" then .ok (pathAsinPart ev.path)
    else
      match decodeURIComponent u with
      | none => .error ()
      | some d => .ok (extractASINFromURL d)
  | none => .ok (pathAsinPart ev.path)

/-- The outcomes of the outbound requests a single `go.js` invocation
may make: the PA-API call and the successive scraping attempts
(`scrape 0` is the first scrape performed, `scrape 1` the second). -/
structure WorldGo where
  api : ApiOutcome
  scrape : Nat → ScrapeOutcome

/-- The catch-block of the `go.js` handler (lines 69-90): scrape, render
on success, render the static fallback page on failure; always 200. -/
def scrapeThenGo (cfg : Config) (w : WorldGo) (asin : String) (i : Nat) : HttpResponse :=
  match fetchAmazonProductScraping asin (w.scrape i) with
  | .ok pd => ok200 (generateHTMLGo cfg pd asin)
  | .error _ => ok200 (generateFallbackHTMLGo cfg asin)

/-- `exports.handler` of `go.js` (lines 9-92).  `none` models an
exception escaping the handler (only possible from
`decodeURIComponent`, which runs before the `try`).  Missing or falsy
credentials skip the PA-API strategy; a rejection of the first scrape
inside the `try` is caught and scraping is attempted once more in the
catch block. -/
def handlerGo (cfg : Config) (w : WorldGo) (ev : EventIn) : Option HttpResponse :=
  match asinOfEventGo ev with
  | .error _ => none
  | .ok none => some ⟨404, "text/html", generateErrorHTMLGo⟩
  | .ok (some asin) =>
    if !(envTruthy cfg.accessKey && envTruthy cfg.secretKey) then
      match fetchAmazonProductScraping asin (w.scrape 0) with
      | .ok pd => some (ok200 (generateHTMLGo cfg pd asin))
      | .error _ => some (scrapeThenGo cfg w asin 1)
    else
      match fetchAmazonProductAPI asin w.api with
      | .ok pd => some (ok200 (generateHTMLGo cfg pd asin))
      | .error _ => some (scrapeThenGo cfg w asin 0)

/-- `exports.handler` of the earlier variant (part_000 lines 4-67): one
scraping attempt, fallback HTML on any failure; always 200 once an ASIN
is found. -/
def handlerPart (w : ScrapeOutcome) (ev : EventIn) : Option HttpResponse :=
  match asinOfEventPart ev with
  | .error _ => none
  | .ok none => some ⟨404, "text/html", errorBodyPart⟩
  | .ok (some asin) =>
    match fetchAmazonProductPart asin w with
    | .ok pd => some (ok200 (generateHTMLPart pd asin))
    | .error _ => some (ok200 (generateFallbackHTMLPart asin))

/-! ## AWS Signature Version 4 construction (`fetchAmazonProductAPI`,
`go.js` lines 128-203).  The hash and HMAC primitives come from node's
`crypto` module (an external library), so they are parameters of the
model; digests are byte lists. -/

/-- The crypto primitives used by the signing code:
`createHash('sha256')...digest()`, and `createHmac('sha256', key)` with
a string key (the first chain link) or a digest key (the later links). -/
structure CryptoOps where
  sha256 : String → List Nat
  hmacStr : String → String → List Nat
  hmacBytes : List Nat → String → List Nat

/-- One lowercase hex digit, as in node's `.digest('hex')`. -/
def hexDigitChar (d : Nat) : Char :=
  Char.ofNat (if d < 10 then 48 + d else 87 + d)

/-- Two lowercase hex digits of one byte. -/
def toHexByte (n : Nat) : String :=
  String.mk [hexDigitChar (n / 16 % 16), hexDigitChar (n % 16)]

/-- `.digest('hex')`: lowercase hex of a byte list. -/
def toHex (l : List Nat) : String := String.join (l.map toHexByte)

/-- JS `Array.prototype.join('\n')`. -/
def joinNL : List String → String
  | [] => ""
  | [s] => s
  | s :: rest => s ++ "\n" ++ joinNL rest

/-- The request-dependent inputs of the signing routine: the
credentials, the JSON payload, and the two timestamp strings derived
from `new Date()`. -/
structure SigningInputs where
  secretKey : String
  accessKey : String
  payload : String
  amzDate : String
  dateStamp : String

/-- The strings and keys produced by the signing code. -/
structure SignatureArtifacts where
  canonicalHeaders : String
  canonicalRequest : String
  credentialScope : String
  stringToSign : String
  kSigning : List Nat
  signature : String
  authorization : String

/-- `const service = 'ProductAdvertisingAPI'`. -/
def awsService : String := "ProductAdvertisingAPI"

/-- `const region = 'us-east-1'`. -/
def awsRegion : String := "us-east-1"

/-- `const host = 'webservices.amazon.com'`. -/
def awsHost : String := "webservices.amazon.com"

/-- `const target = ...GetItems`. -/
def awsTarget : String := "com.amazon.paapi5.v1.ProductAdvertisingAPIv1.GetItems"

/-- `const signedHeaders = 'content-type;host;x-amz-date;x-amz-target'`. -/
def signedHeadersGo : String := "content-type;host;x-amz-date;x-amz-target"

/-- The signature construction of `fetchAmazonProductAPI` (`go.js` lines
158-201), verbatim: canonical headers joined with newlines, canonical
request joined from its six components, credential scope, string to
sign, the four-link HMAC key chain, final hex signature, and the
`Authorization` header value. -/
def buildSignature (ops : CryptoOps) (inp : SigningInputs) : SignatureArtifacts :=
  let canonicalHeaders := joinNL
    [ "content-type:application/json; charset=utf-8"
    , "host:" ++ awsHost
    , "x-amz-date:" ++ inp.amzDate
    , "x-amz-target:" ++ awsTarget ] ++ "\n"
  let payloadHash := toHex (ops.sha256 inp.payload)
  let canonicalRequest := joinNL
    ["POST", "/paapi5/getitems", "", canonicalHeaders, signedHeadersGo, payloadHash]
  let credentialScope :=
    inp.dateStamp ++ "/" ++ awsRegion ++ "/" ++ awsService ++ "/aws4_request"
  let stringToSign := joinNL
    ["AWS4-HMAC-SHA256", inp.amzDate, credentialScope, toHex (ops.sha256 canonicalRequest)]
  let kDate := ops.hmacStr ("AWS4" ++ inp.secretKey) inp.dateStamp
  let kRegion := ops.hmacBytes kDate awsRegion
  let kService := ops.hmacBytes kRegion awsService
  let kSigning := ops.hmacBytes kService "aws4_request"
  let signature := toHex (ops.hmacBytes kSigning stringToSign)
  let authorization := "AWS4-HMAC-SHA256 Credential=" ++ inp.accessKey ++ "/" ++
    credentialScope ++ ", SignedHeaders=" ++ signedHeadersGo ++ ", Signature=" ++ signature
  { canonicalHeaders := canonicalHeaders
    canonicalRequest := canonicalRequest
    credentialScope := credentialScope
    stringToSign := stringToSign
    kSigning := kSigning
    signature := signature
    authorization := authorization }

/-- The string-to-sign exactly as the spec words it: the algorithm name,
the timestamp, the credential scope and the hex SHA-256 of the canonical
request, joined by newlines. -/
def specStringToSign (ops : CryptoOps) (inp : SigningInputs) : String :=
  "AWS4-HMAC-SHA256" ++ "\n" ++ inp.amzDate ++ "\n" ++
    (buildSignature ops inp).credentialScope ++ "\n" ++
    toHex (ops.sha256 (buildSignature ops inp).canonicalRequest)

/-- The signing key exactly as the spec words it: chained HMAC-SHA256
over the date stamp, region, service name and the fixed suffix token
`aws4_request`, seeded from the secret key prefixed with the fixed
literal `AWS4`. -/
def specSigningKey (ops : CryptoOps) (inp : SigningInputs) : List Nat :=
  ops.hmacBytes
    (ops.hmacBytes
      (ops.hmacBytes (ops.hmacStr ("AWS4" ++ inp.secretKey) inp.dateStamp) awsRegion)
      awsService)
    "aws4_request"

/-- The final signature exactly as the spec words it: the hex
HMAC-SHA256 of the string-to-sign under the derived signing key. -/
def specSignature (ops : CryptoOps) (inp : SigningInputs) : String :=
  toHex (ops.hmacBytes (specSigningKey ops inp) (buildSignature ops inp).stringToSign)


/-! ## Helper lemmas -/

lemma ciCharEq_same (c : Char) : ciCharEq c c = true := by simp [ciCharEq]

lemma ciCharEq_slash {c : Char} (h : isAsinChar c = true) : ciCharEq '/' c = false := by
  simp [isAsinChar] at h
  simp only [ciCharEq, lowerN, show ('/' : Char).toNat = 47 from rfl]
  norm_num
  split_ifs <;> omega

lemma ciCharEq_eqsign {c : Char} (h : isAsinChar c = true) : ciCharEq '=' c = false := by
  simp [isAsinChar] at h
  simp only [ciCharEq, lowerN, show ('=' : Char).toNat = 61 from rfl]
  norm_num
  split_ifs <;> omega

lemma beq_slash {c : Char} (h : isAsinChar c = true) : (c == '/') = false := by
  simp [isAsinChar] at h
  have hne : c.toNat ≠ 47 := by omega
  simp only [beq_eq_false_iff_ne, ne_eq]
  intro hc; subst hc; simp at hne

lemma exists_ten (t : List Char) (h : t.length = 10) :
    ∃ a b c d e f g h' i j, t = [a, b, c, d, e, f, g, h', i, j] := by
  match t, h with
  | [a, b, c, d, e, f, g, h', i, j], _ => exact ⟨a,b,c,d,e,f,g,h',i,j, rfl⟩

lemma extract_dp (t : String) (h : asinTest t.data = true) :
    extractASINFromURL ("/dp/" ++ t) = some t := by
  have hlen : t.data.length = 10 := by
    simp [asinTest] at h; exact h.1
  have hall : ∀ c ∈ t.data, isAsinChar c = true := by
    simp [asinTest] at h; exact h.2
  obtain ⟨a,b,c,d,e,f,g,h',i,j, ht⟩ := exists_ten t.data hlen
  have h0 : isAsinChar a = true := hall _ (by rw [ht]; simp)
  have h1 : isAsinChar b = true := hall _ (by rw [ht]; simp)
  have h2 : isAsinChar c = true := hall _ (by rw [ht]; simp)
  have h3 : isAsinChar d = true := hall _ (by rw [ht]; simp)
  have h4 : isAsinChar e = true := hall _ (by rw [ht]; simp)
  have h5 : isAsinChar f = true := hall _ (by rw [ht]; simp)
  have h6 : isAsinChar g = true := hall _ (by rw [ht]; simp)
  have h7 : isAsinChar h' = true := hall _ (by rw [ht]; simp)
  have h8 : isAsinChar i = true := hall _ (by rw [ht]; simp)
  have h9 : isAsinChar j = true := hall _ (by rw [ht]; simp)
  unfold extractASINFromURL
  rw [show ("/dp/" ++ t).data = "/dp/".data ++ t.data from String.data_append ..]
  rw [show t = String.mk t.data from rfl, ht]
  simp +decide [extractList, shortLinkMappings, asinPatterns, List.find?, List.findSome?,
    containsSub, List.isPrefixOf, scanLit, scanBare, ciPrefix, asinTest,
    String.data, ciCharEq_same, ciCharEq_slash, ciCharEq_eqsign, beq_slash,
    h0,h1,h2,h3,h4,h5,h6,h7,h8,h9]

lemma extract_product (t : String) (h : asinTest t.data = true) :
    extractASINFromURL ("/product/" ++ t) = some t := by
  have hlen : t.data.length = 10 := by
    simp [asinTest] at h; exact h.1
  have hall : ∀ c ∈ t.data, isAsinChar c = true := by
    simp [asinTest] at h; exact h.2
  obtain ⟨a,b,c,d,e,f,g,h',i,j, ht⟩ := exists_ten t.data hlen
  have h0 : isAsinChar a = true := hall _ (by rw [ht]; simp)
  have h1 : isAsinChar b = true := hall _ (by rw [ht]; simp)
  have h2 : isAsinChar c = true := hall _ (by rw [ht]; simp)
  have h3 : isAsinChar d = true := hall _ (by rw [ht]; simp)
  have h4 : isAsinChar e = true := hall _ (by rw [ht]; simp)
  have h5 : isAsinChar f = true := hall _ (by rw [ht]; simp)
  have h6 : isAsinChar g = true := hall _ (by rw [ht]; simp)
  have h7 : isAsinChar h' = true := hall _ (by rw [ht]; simp)
  have h8 : isAsinChar i = true := hall _ (by rw [ht]; simp)
  have h9 : isAsinChar j = true := hall _ (by rw [ht]; simp)
  unfold extractASINFromURL
  rw [show ("/product/" ++ t).data = "/product/".data ++ t.data from String.data_append ..]
  rw [show t = String.mk t.data from rfl, ht]
  simp +decide [extractList, shortLinkMappings, asinPatterns, List.find?, List.findSome?,
    containsSub, List.isPrefixOf, scanLit, scanBare, ciPrefix, asinTest,
    String.data, ciCharEq_same, ciCharEq_slash, ciCharEq_eqsign, beq_slash,
    h0,h1,h2,h3,h4,h5,h6,h7,h8,h9]

lemma extract_gp_product (t : String) (h : asinTest t.data = true) :
    extractASINFromURL ("/gp/product/" ++ t) = some t := by
  have hlen : t.data.length = 10 := by
    simp [asinTest] at h; exact h.1
  have hall : ∀ c ∈ t.data, isAsinChar c = true := by
    simp [asinTest] at h; exact h.2
  obtain ⟨a,b,c,d,e,f,g,h',i,j, ht⟩ := exists_ten t.data hlen
  have h0 : isAsinChar a = true := hall _ (by rw [ht]; simp)
  have h1 : isAsinChar b = true := hall _ (by rw [ht]; simp)
  have h2 : isAsinChar c = true := hall _ (by rw [ht]; simp)
  have h3 : isAsinChar d = true := hall _ (by rw [ht]; simp)
  have h4 : isAsinChar e = true := hall _ (by rw [ht]; simp)
  have h5 : isAsinChar f = true := hall _ (by rw [ht]; simp)
  have h6 : isAsinChar g = true := hall _ (by rw [ht]; simp)
  have h7 : isAsinChar h' = true := hall _ (by rw [ht]; simp)
  have h8 : isAsinChar i = true := hall _ (by rw [ht]; simp)
  have h9 : isAsinChar j = true := hall _ (by rw [ht]; simp)
  unfold extractASINFromURL
  rw [show ("/gp/product/" ++ t).data = "/gp/product/".data ++ t.data from String.data_append ..]
  rw [show t = String.mk t.data from rfl, ht]
  simp +decide [extractList, shortLinkMappings, asinPatterns, List.find?, List.findSome?,
    containsSub, List.isPrefixOf, scanLit, scanBare, ciPrefix, asinTest,
    String.data, ciCharEq_same, ciCharEq_slash, ciCharEq_eqsign, beq_slash,
    h0,h1,h2,h3,h4,h5,h6,h7,h8,h9]

lemma extract_asin_param (t : String) (h : asinTest t.data = true) :
    extractASINFromURL ("asin=" ++ t) = some t := by
  have hlen : t.data.length = 10 := by
    simp [asinTest] at h; exact h.1
  have hall : ∀ c ∈ t.data, isAsinChar c = true := by
    simp [asinTest] at h; exact h.2
  obtain ⟨a,b,c,d,e,f,g,h',i,j, ht⟩ := exists_ten t.data hlen
  have h0 : isAsinChar a = true := hall _ (by rw [ht]; simp)
  have h1 : isAsinChar b = true := hall _ (by rw [ht]; simp)
  have h2 : isAsinChar c = true := hall _ (by rw [ht]; simp)
  have h3 : isAsinChar d = true := hall _ (by rw [ht]; simp)
  have h4 : isAsinChar e = true := hall _ (by rw [ht]; simp)
  have h5 : isAsinChar f = true := hall _ (by rw [ht]; simp)
  have h6 : isAsinChar g = true := hall _ (by rw [ht]; simp)
  have h7 : isAsinChar h' = true := hall _ (by rw [ht]; simp)
  have h8 : isAsinChar i = true := hall _ (by rw [ht]; simp)
  have h9 : isAsinChar j = true := hall _ (by rw [ht]; simp)
  unfold extractASINFromURL
  rw [show ("asin=" ++ t).data = "asin=".data ++ t.data from String.data_append ..]
  rw [show t = String.mk t.data from rfl, ht]
  simp +decide [extractList, shortLinkMappings, asinPatterns, List.find?, List.findSome?,
    containsSub, List.isPrefixOf, scanLit, scanBare, ciPrefix, asinTest,
    String.data, ciCharEq_same, ciCharEq_slash, ciCharEq_eqsign, beq_slash,
    h0,h1,h2,h3,h4,h5,h6,h7,h8,h9]

lemma extract_bare (t : String) (h : asinTest t.data = true) :
    extractASINFromURL ("/" ++ t) = some t := by
  have hlen : t.data.length = 10 := by
    simp [asinTest] at h; exact h.1
  have hall : ∀ c ∈ t.data, isAsinChar c = true := by
    simp [asinTest] at h; exact h.2
  obtain ⟨a,b,c,d,e,f,g,h',i,j, ht⟩ := exists_ten t.data hlen
  have h0 : isAsinChar a = true := hall _ (by rw [ht]; simp)
  have h1 : isAsinChar b = true := hall _ (by rw [ht]; simp)
  have h2 : isAsinChar c = true := hall _ (by rw [ht]; simp)
  have h3 : isAsinChar d = true := hall _ (by rw [ht]; simp)
  have h4 : isAsinChar e = true := hall _ (by rw [ht]; simp)
  have h5 : isAsinChar f = true := hall _ (by rw [ht]; simp)
  have h6 : isAsinChar g = true := hall _ (by rw [ht]; simp)
  have h7 : isAsinChar h' = true := hall _ (by rw [ht]; simp)
  have h8 : isAsinChar i = true := hall _ (by rw [ht]; simp)
  have h9 : isAsinChar j = true := hall _ (by rw [ht]; simp)
  unfold extractASINFromURL
  rw [show ("/" ++ t).data = "/".data ++ t.data from String.data_append ..]
  rw [show t = String.mk t.data from rfl, ht]
  simp +decide [extractList, shortLinkMappings, asinPatterns, List.find?, List.findSome?,
    containsSub, List.isPrefixOf, scanLit, scanBare, ciPrefix, asinTest,
    String.data, ciCharEq_same, ciCharEq_slash, ciCharEq_eqsign, beq_slash,
    h0,h1,h2,h3,h4,h5,h6,h7,h8,h9]

lemma bne_slash {c : Char} (h : isAsinChar c = true) : (c != '/') = true := by
  simp [bne, beq_slash h]

lemma pathGo_direct (t : String) (h : asinTest t.data = true) :
    pathAsinGo ("/" ++ t) = some t := by
  have hlen : t.data.length = 10 := by
    simp [asinTest] at h; exact h.1
  have hall : ∀ c ∈ t.data, isAsinChar c = true := by
    simp [asinTest] at h; exact h.2
  obtain ⟨a,b,c,d,e,f,g,h',i,j, ht⟩ := exists_ten t.data hlen
  have h0 : isAsinChar a = true := hall _ (by rw [ht]; simp)
  have h1 : isAsinChar b = true := hall _ (by rw [ht]; simp)
  have h2 : isAsinChar c = true := hall _ (by rw [ht]; simp)
  have h3 : isAsinChar d = true := hall _ (by rw [ht]; simp)
  have h4 : isAsinChar e = true := hall _ (by rw [ht]; simp)
  have h5 : isAsinChar f = true := hall _ (by rw [ht]; simp)
  have h6 : isAsinChar g = true := hall _ (by rw [ht]; simp)
  have h7 : isAsinChar h' = true := hall _ (by rw [ht]; simp)
  have h8 : isAsinChar i = true := hall _ (by rw [ht]; simp)
  have h9 : isAsinChar j = true := hall _ (by rw [ht]; simp)
  unfold pathAsinGo
  rw [show ("/" ++ t).data = "/".data ++ t.data from String.data_append ..]
  rw [show t = String.mk t.data from rfl, ht]
  simp +decide [removeFirst, List.isPrefixOf, asinTest, String.data,
    bne_slash, h0,h1,h2,h3,h4,h5,h6,h7,h8,h9]

lemma pathPart_direct (t : String) (h : asinTest t.data = true) :
    pathAsinPart ("/go/" ++ t) = some t := by
  have hlen : t.data.length = 10 := by
    simp [asinTest] at h; exact h.1
  have hall : ∀ c ∈ t.data, isAsinChar c = true := by
    simp [asinTest] at h; exact h.2
  obtain ⟨a,b,c,d,e,f,g,h',i,j, ht⟩ := exists_ten t.data hlen
  have h0 : isAsinChar a = true := hall _ (by rw [ht]; simp)
  have h1 : isAsinChar b = true := hall _ (by rw [ht]; simp)
  have h2 : isAsinChar c = true := hall _ (by rw [ht]; simp)
  have h3 : isAsinChar d = true := hall _ (by rw [ht]; simp)
  have h4 : isAsinChar e = true := hall _ (by rw [ht]; simp)
  have h5 : isAsinChar f = true := hall _ (by rw [ht]; simp)
  have h6 : isAsinChar g = true := hall _ (by rw [ht]; simp)
  have h7 : isAsinChar h' = true := hall _ (by rw [ht]; simp)
  have h8 : isAsinChar i = true := hall _ (by rw [ht]; simp)
  have h9 : isAsinChar j = true := hall _ (by rw [ht]; simp)
  unfold pathAsinPart
  rw [show ("/go/" ++ t).data = "/go/".data ++ t.data from String.data_append ..]
  rw [show t = String.mk t.data from rfl, ht]
  simp +decide [removeFirst, List.isPrefixOf, asinTest, String.data,
    bne_slash, h0,h1,h2,h3,h4,h5,h6,h7,h8,h9]

lemma mk_length (l : List Char) : (String.mk l).length = l.length := rfl

lemma mk_data_eq (l : List Char) : (String.mk l).data = l := rfl

lemma pathGo_accepts_only_asin (p a : String) (h : pathAsinGo p = some a) :
    a.length = 10 ∧ asinTest a.data = true := by
  unfold pathAsinGo at h
  simp only [Option.ite_none_right_eq_some, Option.some.injEq] at h
  obtain ⟨hc, ha⟩ := h
  subst ha
  simp only [Bool.and_eq_true, beq_iff_eq] at hc
  exact ⟨hc.1.2, hc.2⟩

lemma extract_shortlink (url : String)
    (h : containsSub "amzn.to/468mKVM".data url.data = true) :
    extractASINFromURL url = some "B09P21T2GC" := by
  unfold extractASINFromURL extractList
  simp [shortLinkMappings, List.find?, h]


lemma append_ne_empty (p s : String) (hp : p.data ≠ []) : p ++ s ≠ "" := by
  intro h
  have hd := congrArg String.data h
  rw [String.data_append, show ("" : String).data = [] from rfl] at hd
  exact hp (List.append_eq_nil.mp hd).1

lemma amazonProduct_ne (asin : String) : ("Amazon Product " ++ asin) ≠ "" :=
  append_ne_empty _ _ (by decide)

lemma append3_ne (p asin q : String) (hp : p.data ≠ []) : (p ++ asin ++ q) ≠ "" := by
  apply append_ne_empty
  rw [String.data_append]
  intro hcontra
  exact hp (List.append_eq_nil.mp hcontra).1

lemma ne_empty_of_ite (s fb : String) (hfb : fb ≠ "") :
    (if s == "" then fb else s) ≠ "" := by
  split
  · exact hfb
  · next h =>
    rw [Bool.not_eq_true] at h
    exact beq_eq_false_iff_ne.mp h

lemma scrapeThenGo_is200 (cfg : Config) (w : WorldGo) (a : String) (i : Nat) :
    ∃ b, scrapeThenGo cfg w a i = ok200 b := by
  unfold scrapeThenGo
  cases h : fetchAmazonProductScraping a (w.scrape i) with
  | error e => exact ⟨_, rfl⟩
  | ok pd => exact ⟨_, rfl⟩

lemma handlerGo_ok200 (cfg : Config) (w : WorldGo) (ev : EventIn) (a : String)
    (h : asinOfEventGo ev = .ok (some a)) :
    ∃ b, handlerGo cfg w ev = some (ok200 b) := by
  unfold handlerGo
  rw [h]
  cases hcred : envTruthy cfg.accessKey && envTruthy cfg.secretKey
  · cases hf : fetchAmazonProductScraping a (w.scrape 0) with
    | ok pd => exact ⟨generateHTMLGo cfg pd a, by simp [hcred, hf]⟩
    | error e =>
      obtain ⟨b, hb⟩ := scrapeThenGo_is200 cfg w a 1
      exact ⟨b, by simp [hcred, hf, hb]⟩
  · cases hf : fetchAmazonProductAPI a w.api with
    | ok pd => exact ⟨generateHTMLGo cfg pd a, by simp [hcred, hf]⟩
    | error e =>
      obtain ⟨b, hb⟩ := scrapeThenGo_is200 cfg w a 0
      exact ⟨b, by simp [hcred, hf, hb]⟩

lemma handlerPart_ok200 (w : ScrapeOutcome) (ev : EventIn) (a : String)
    (h : asinOfEventPart ev = .ok (some a)) :
    ∃ b, handlerPart w ev = some (ok200 b) := by
  unfold handlerPart
  rw [h]
  cases hf : fetchAmazonProductPart a w with
  | ok pd => exact ⟨generateHTMLPart pd a, by simp [hf]⟩
  | error e => exact ⟨generateFallbackHTMLPart a, by simp [hf]⟩


lemma str_append_assoc (a b c : String) : a ++ b ++ c = a ++ (b ++ c) := by
  apply String.ext
  simp [String.data_append, List.append_assoc]


/-! ## Claim theorems -/

/-- C1 (corrected).  In `go.js` the handler strips the first `/` of the
path and takes the first path segment, accepting it exactly when it is
10 characters matching the ASIN pattern: `/B09P21T2GC` yields
`B09P21T2GC`, but `/go/B09P21T2GC` yields no ASIN, because the segment
is then `go`.  The example path `/go/B09P21T2GC` works only in the
earlier variant, which strips the substring `/go/` instead of the
leading separator. -/
theorem c1_path_extraction_amended (t : String) (h : asinTest t.data = true) :
    pathAsinGo ("/" ++ t) = some t ∧
    pathAsinGo "/go/B09P21T2GC" = none ∧
    pathAsinPart ("/go/" ++ t) = some t ∧
    pathAsinPart "/B09P21T2GC" = none ∧
    (∀ p a, pathAsinGo p = some a → a.length = 10 ∧ asinTest a.data = true) ∧
    pathAsinGo "/B09P21T2GC" = some "B09P21T2GC" :=
  ⟨pathGo_direct t h, by decide, pathPart_direct t h, by decide,
   fun p a hpa => pathGo_accepts_only_asin p a hpa, by decide⟩

/-- C1 counterexample: on the claimed example path `/go/B09P21T2GC` the
`go.js` extraction yields no ASIN and the handler responds 404, not the
ASIN `B09P21T2GC` the claim asserts. -/
theorem c1_go_path_counterexample :
    pathAsinGo "/go/B09P21T2GC" = none ∧
    handlerGo ⟨none, none, none⟩ ⟨.transportError, fun _ => .transportError⟩
      ⟨none, "/go/B09P21T2GC"⟩ = some ⟨404, "text/html", generateErrorHTMLGo⟩ := by
  constructor
  · decide
  · rfl

/-- C2 (corrected).  For every valid 10-character alphanumeric token,
`extractASINFromURL` returns exactly that token for a URL embedding it
in any one of the five supported shapes, provided no known short-link
substring and no earlier-matching candidate occurs in the URL; the two
spec example URLs also extract to `B09P21T2GC`. -/
theorem c2_shape_extraction_amended (t : String) (h : asinTest t.data = true) :
    extractASINFromURL ("/dp/" ++ t) = some t ∧
    extractASINFromURL ("/product/" ++ t) = some t ∧
    extractASINFromURL ("/gp/product/" ++ t) = some t ∧
    extractASINFromURL ("asin=" ++ t) = some t ∧
    extractASINFromURL ("/" ++ t) = some t ∧
    extractASINFromURL "https://amazon.com/dp/B09P21T2GC/ref=xyz" = some "B09P21T2GC" ∧
    extractASINFromURL "https://amazon.com/gp/product/B09P21T2GC" = some "B09P21T2GC" :=
  ⟨extract_dp t h, extract_product t h, extract_gp_product t h, extract_asin_param t h,
   extract_bare t h, by decide, by decide⟩

/-- C2 counterexample: the URL
`https://amzn.to/468mKVM?u=/dp/AAAAAAAAAA` embeds the valid token
`AAAAAAAAAA` in the `/dp/` shape, yet extraction returns `B09P21T2GC`
(the short-link table wins), refuting the claim as universally
stated. -/
theorem c2_shortlink_counterexample :
    containsSub "/dp/AAAAAAAAAA".data "https://amzn.to/468mKVM?u=/dp/AAAAAAAAAA".data = true ∧
    extractASINFromURL "https://amzn.to/468mKVM?u=/dp/AAAAAAAAAA" = some "B09P21T2GC" ∧
    extractASINFromURL "https://amzn.to/468mKVM?u=/dp/AAAAAAAAAA" ≠ some "AAAAAAAAAA" := by
  refine ⟨by decide, by decide, by decide⟩

/-- C4 (corrected).  Provided the handler returns at all (equivalently,
`decodeURIComponent` does not throw on the `url` parameter), both
handler variants return 404 with `Content-Type: text/html` and the
explanatory HTML body exactly when no ASIN is determined, and otherwise
200 with `Content-Type: text/html`; no other status occurs. -/
theorem c4_status_amended (cfg : Config) (w : WorldGo) (ws : ScrapeOutcome) (ev : EventIn) :
    (asinOfEventGo ev = .ok none →
      handlerGo cfg w ev = some ⟨404, "text/html", generateErrorHTMLGo⟩) ∧
    (∀ a, asinOfEventGo ev = .ok (some a) →
      ∃ b, handlerGo cfg w ev = some ⟨200, "text/html", b⟩) ∧
    (asinOfEventGo ev = .error () → handlerGo cfg w ev = none) ∧
    (∀ r, handlerGo cfg w ev = some r →
      (r.statusCode = 200 ∨ r.statusCode = 404) ∧ r.contentType = "text/html") ∧
    (asinOfEventPart ev = .ok none →
      handlerPart ws ev = some ⟨404, "text/html", errorBodyPart⟩) ∧
    (∀ a, asinOfEventPart ev = .ok (some a) →
      ∃ b, handlerPart ws ev = some ⟨200, "text/html", b⟩) ∧
    (∀ r, handlerPart ws ev = some r →
      (r.statusCode = 200 ∨ r.statusCode = 404) ∧ r.contentType = "text/html") := by
  refine ⟨?_, ?_, ?_, ?_, ?_, ?_, ?_⟩
  · intro h; unfold handlerGo; rw [h]
  · intro a h; exact handlerGo_ok200 cfg w ev a h
  · intro h; unfold handlerGo; rw [h]
  · intro r hr
    rcases hstep : asinOfEventGo ev with u | o
    · unfold handlerGo at hr; rw [hstep] at hr; simp at hr
    · cases o with
      | none =>
        unfold handlerGo at hr; rw [hstep] at hr
        injection hr with hr
        subst hr
        simp
      | some a =>
        obtain ⟨b, hb⟩ := handlerGo_ok200 cfg w ev a hstep
        rw [hb] at hr
        injection hr with hr
        subst hr
        simp [ok200]
  · intro h; unfold handlerPart; rw [h]
  · intro a h; exact handlerPart_ok200 ws ev a h
  · intro r hr
    rcases hstep : asinOfEventPart ev with u | o
    · unfold handlerPart at hr; rw [hstep] at hr; simp at hr
    · cases o with
      | none =>
        unfold handlerPart at hr; rw [hstep] at hr
        injection hr with hr
        subst hr
        simp
      | some a =>
        obtain ⟨b, hb⟩ := handlerPart_ok200 ws ev a hstep
        rw [hb] at hr
        injection hr with hr
        subst hr
        simp [ok200]

/-- C4 counterexample: for the request `?url=%` no ASIN can be
extracted, but the handler does not return 404: `decodeURIComponent`
throws before the `try` block, so no response is produced at all
(the platform then reports a 5xx error). -/
theorem c4_decode_throw_counterexample :
    asinOfEventGo ⟨some "%", "/"⟩ = .error () ∧
    handlerGo ⟨none, none, none⟩ ⟨.transportError, fun _ => .transportError⟩
      ⟨some "%", "/"⟩ = none := by
  constructor
  · rfl
  · rfl

/-- C5 (confirmed).  Whenever the scraped body indicates a block (a
known block-page marker or fewer than 1000 characters), the `go.js`
scraping strategy resolves, without retry and without error, the record
with title `"Amazon Product " ++ asin`, the deterministic ASIN-derived
fallback image URL, and the empty price. -/
theorem c5_blocked_fallback (asin data : String) (dom : ScrapeDom)
    (hb : blockedBody data = true) :
    fetchAmazonProductScraping asin (.gotBody data dom) =
      .ok { title := "Amazon Product " ++ asin
            image := "https://images-na.ssl-images-amazon.com/images/P/" ++ asin ++
              ".01._SL1500_.jpg"
            price := ""
            asin := asin } := by
  simp [fetchAmazonProductScraping, hb, scrapeFallbackRecord]

/-- C6 (confirmed).  Every record produced by `parsePAAPI5Response` or
by a resolving scrape carries the input ASIN and non-empty title and
image (synthesized from the ASIN when data is missing), while the price
is passed through from the source data and never synthesized: it is
empty whenever the source had none. -/
theorem c6_record_population (resp : PAResponse) (asin data : String) (dom : ScrapeDom)
    (net : ScrapeOutcome) :
    ((parsePAAPI5Response resp asin).asin = asin ∧
     (parsePAAPI5Response resp asin).title ≠ "" ∧
     (parsePAAPI5Response resp asin).image ≠ "" ∧
     (resp.items = [] → (parsePAAPI5Response resp asin).price = "") ∧
     (∀ item rest, resp.items = item :: rest →
        (parsePAAPI5Response resp asin).price = item.priceDisplayAmount.getD "")) ∧
    (∀ r, fetchAmazonProductScraping asin net = .ok r →
      r.asin = asin ∧ r.title ≠ "" ∧ r.image ≠ "") ∧
    (∀ r, fetchAmazonProductPart asin net = .ok r →
      r.asin = asin ∧ r.title ≠ "" ∧ r.image ≠ "") ∧
    (blockedBody data = false → dom.parseThrows = false →
      ∀ r, fetchAmazonProductScraping asin (.gotBody data dom) = .ok r →
        r.price = dom.price) := by
  refine ⟨⟨rfl, ?_, ?_, ?_, ?_⟩, ?_, ?_, ?_⟩
  · exact ne_empty_of_ite _ _ (amazonProduct_ne asin)
  · exact ne_empty_of_ite _ _ (append3_ne _ _ _ (by decide))
  · intro h; unfold parsePAAPI5Response; rw [h]
  · intro item rest h; unfold parsePAAPI5Response; rw [h]
  · intro r hr
    cases net with
    | transportError => simp [fetchAmazonProductScraping] at hr
    | timeout => simp [fetchAmazonProductScraping] at hr
    | gotBody d dm =>
      simp only [fetchAmazonProductScraping] at hr
      split at hr
      · injection hr with hr
        subst hr
        exact ⟨rfl, amazonProduct_ne asin, append3_ne _ _ _ (by decide)⟩
      · split at hr
        · injection hr with hr
          subst hr
          exact ⟨rfl, amazonProduct_ne asin, append3_ne _ _ _ (by decide)⟩
        · injection hr with hr
          subst hr
          exact ⟨rfl, ne_empty_of_ite _ _ (amazonProduct_ne asin),
            ne_empty_of_ite _ _ (append3_ne _ _ _ (by decide))⟩
  · intro r hr
    cases net with
    | transportError => simp [fetchAmazonProductPart] at hr
    | timeout => simp [fetchAmazonProductPart] at hr
    | gotBody d dm =>
      simp only [fetchAmazonProductPart] at hr
      split at hr
      · simp at hr
      · injection hr with hr
        subst hr
        exact ⟨rfl, ne_empty_of_ite _ _ (amazonProduct_ne asin),
          ne_empty_of_ite _ _ (append3_ne _ _ _ (by decide))⟩
  · intro hb hp r hr
    simp only [fetchAmazonProductScraping] at hr
    rw [hb, hp] at hr
    simp at hr
    subst hr
    rfl

/-- C7 (confirmed).  When either credential is absent or empty, the
`go.js` handler never consults the PA-API outcome (the response is
invariant in it) and scraping produces a 200 response with no surfaced
error; when credentials are present and the PA-API strategy fails for
any modelled reason, the handler falls through to the scraping chain
and still returns 200. -/
theorem c7_strategy_fallthrough (cfg : Config) (w : WorldGo) (ev : EventIn) (a : String)
    (ha : asinOfEventGo ev = .ok (some a)) :
    ((envTruthy cfg.accessKey && envTruthy cfg.secretKey) = false →
      (∀ api1 api2 : ApiOutcome,
        handlerGo cfg ⟨api1, w.scrape⟩ ev = handlerGo cfg ⟨api2, w.scrape⟩ ev) ∧
      ∃ b, handlerGo cfg w ev = some ⟨200, "text/html", b⟩) ∧
    ((envTruthy cfg.accessKey && envTruthy cfg.secretKey) = true →
      fetchAmazonProductAPI a w.api = .error () →
      handlerGo cfg w ev = some (scrapeThenGo cfg w a 0) ∧
      ∃ b, handlerGo cfg w ev = some ⟨200, "text/html", b⟩) := by
  constructor
  · intro hc
    refine ⟨?_, handlerGo_ok200 cfg w ev a ha⟩
    intro api1 api2
    unfold handlerGo
    rw [ha]
    simp only [hc, Bool.not_false, if_true]
    cases hf : fetchAmazonProductScraping a (w.scrape 0) <;> rfl
  · intro hc hf
    refine ⟨?_, handlerGo_ok200 cfg w ev a ha⟩
    unfold handlerGo
    rw [ha]
    simp [hc, hf]

/-- C8 (corrected).  No variant retries after a generic scrape result:
the `go.js` handler renders whatever record the first scrape resolves,
even the generic fallback, and performs a second scrape only when the
first attempt rejects; the earlier variant scrapes exactly once and
renders static fallback HTML on failure. -/
theorem c8_no_retry_amended (cfg : Config) (w : WorldGo) (ws : ScrapeOutcome)
    (ev evp : EventIn) (a : String) (r : ProductRecord)
    (ha : asinOfEventGo ev = .ok (some a))
    (hc : (envTruthy cfg.accessKey && envTruthy cfg.secretKey) = false)
    (hp : asinOfEventPart evp = .ok (some a)) :
    (fetchAmazonProductScraping a (w.scrape 0) = .ok r →
      handlerGo cfg w ev = some (ok200 (generateHTMLGo cfg r a))) ∧
    (fetchAmazonProductScraping a (w.scrape 0) = .error () →
      handlerGo cfg w ev = some (scrapeThenGo cfg w a 1)) ∧
    (∀ pd, fetchAmazonProductPart a ws = .ok pd →
      handlerPart ws evp = some (ok200 (generateHTMLPart pd a))) ∧
    (fetchAmazonProductPart a ws = .error () →
      handlerPart ws evp = some (ok200 (generateFallbackHTMLPart a))) := by
  refine ⟨?_, ?_, ?_, ?_⟩
  · intro hf; unfold handlerGo; rw [ha]; simp [hc, hf]
  · intro hf; unfold handlerGo; rw [ha]; simp [hc, hf]
  · intro pd hf; unfold handlerPart; rw [hp]; simp [hf]
  · intro hf; unfold handlerPart; rw [hp]; simp [hf]

/-- C8 counterexample: the first scrape resolves the generic fallback
record (blocked body), a second attempt would return a rich record, yet
both handlers render the generic first result; the `go.js` response is
unchanged when the second-attempt outcome is replaced, so no retry
happens. -/
theorem c8_retry_counterexample :
    fetchAmazonProductScraping "B09P21T2GC" (.gotBody "" ⟨"", "", "", false⟩) =
      .ok (scrapeFallbackRecord "B09P21T2GC") ∧
    (scrapeFallbackRecord "B09P21T2GC").title = "Amazon Product B09P21T2GC" ∧
    handlerGo ⟨none, none, none⟩
      ⟨.transportError, fun i => if i = 0 then .gotBody "" ⟨"", "", "", false⟩
        else .gotBody "" ⟨"Rich Title", "https://m.media-amazon.com/x.jpg", "$9.99", false⟩⟩
      ⟨none, "/B09P21T2GC"⟩ =
      some (ok200 (generateHTMLGo ⟨none, none, none⟩
        (scrapeFallbackRecord "B09P21T2GC") "B09P21T2GC")) ∧
    handlerGo ⟨none, none, none⟩
      ⟨.transportError, fun i => if i = 0 then .gotBody "" ⟨"", "", "", false⟩
        else .gotBody "" ⟨"Rich Title", "https://m.media-amazon.com/x.jpg", "$9.99", false⟩⟩
      ⟨none, "/B09P21T2GC"⟩ =
    handlerGo ⟨none, none, none⟩
      ⟨.transportError, fun i => if i = 0 then .gotBody "" ⟨"", "", "", false⟩
        else .timeout⟩
      ⟨none, "/B09P21T2GC"⟩ ∧
    handlerPart (.gotBody "" ⟨"", "", "", false⟩) ⟨none, "/go/B09P21T2GC"⟩ =
      some (ok200 (generateHTMLPart
        { title := "Amazon Product " ++ "B09P21T2GC"
          image := "https://images-na.ssl-images-amazon.com/images/P/" ++ "B09P21T2GC" ++
            ".01._SX300_QL70_.jpg"
          price := ""
          asin := "B09P21T2GC" } "B09P21T2GC")) := by
  refine ⟨rfl, by decide, rfl, rfl, rfl⟩

/-- C9 (confirmed).  The signing routine of `fetchAmazonProductAPI`
builds the string-to-sign as the algorithm name, timestamp, credential
scope and hex SHA-256 of the canonical request joined by newlines,
derives the signing key by HMAC-SHA256 chained over date stamp, region,
service and `aws4_request` seeded from `AWS4` + secret key, signs the
string-to-sign with that key in hex, and embeds algorithm, credential
scope, signed-header list and signature in the Authorization value. -/
theorem c9_signing_construction (ops : CryptoOps) (inp : SigningInputs) :
    (buildSignature ops inp).stringToSign = specStringToSign ops inp ∧
    (buildSignature ops inp).kSigning = specSigningKey ops inp ∧
    (buildSignature ops inp).signature = specSignature ops inp ∧
    (buildSignature ops inp).authorization =
      "AWS4-HMAC-SHA256 Credential=" ++ inp.accessKey ++ "/" ++
        (buildSignature ops inp).credentialScope ++ ", SignedHeaders=" ++
        signedHeadersGo ++ ", Signature=" ++ (buildSignature ops inp).signature := by
  refine ⟨?_, rfl, rfl, rfl⟩
  simp [buildSignature, specStringToSign, joinNL, str_append_assoc]

/-- C10 (confirmed).  A lowercase 10-character token is accepted and
returned verbatim by URL-shape extraction and by direct-path extraction,
and the rendered page embeds it unchanged in the affiliate URL
`https://www.amazon.com/dp/<ASIN>?tag=<affiliateTag>`. -/
theorem c10_lowercase_asin (t : String) (cfg : Config) (pd : ProductRecord)
    (hlow : t.data.any (fun c => 97 ≤ c.toNat && c.toNat ≤ 122) = true)
    (h : asinTest t.data = true) :
    extractASINFromURL ("/dp/" ++ t) = some t ∧
    extractASINFromURL ("asin=" ++ t) = some t ∧
    pathAsinGo ("/" ++ t) = some t ∧
    affiliateUrl cfg t =
      "https://www.amazon.com/dp/" ++ t ++ "?tag=" ++ partnerTagOf cfg ∧
    generateHTMLGo cfg pd t =
      goHtmlPre pd t ++ affiliateUrl cfg t ++ goHtmlPost cfg t ∧
    ∃ pre post, (generateHTMLGo cfg pd t).data =
      pre ++ (affiliateUrl cfg t).data ++ post :=
  ⟨extract_dp t h, extract_asin_param t h, pathGo_direct t h, rfl, rfl,
   ⟨(goHtmlPre pd t).data, (goHtmlPost cfg t).data, by
      simp [generateHTMLGo, String.data_append]⟩⟩

/-- C10 witness at the all-lowercase token `b09p21t2gc`. -/
theorem c10_lowercase_asin_witness :
    asinTest "b09p21t2gc".data = true ∧
    extractASINFromURL ("/dp/" ++ "b09p21t2gc") = some "b09p21t2gc" ∧
    pathAsinGo ("/" ++ "b09p21t2gc") = some "b09p21t2gc" :=
  ⟨by decide,
   (c10_lowercase_asin "b09p21t2gc" ⟨none, none, none⟩ ⟨"t", "i", "p", "a"⟩
      (by decide) (by decide)).1,
   (c10_lowercase_asin "b09p21t2gc" ⟨none, none, none⟩ ⟨"t", "i", "p", "a"⟩
      (by decide) (by decide)).2.2.1⟩


/-- C1 witness: the amended path-extraction claim at `B09P21T2GC`. -/
theorem c1_path_extraction_witness :
    asinTest "B09P21T2GC".data = true ∧
    pathAsinGo ("/" ++ "B09P21T2GC") = some "B09P21T2GC" ∧
    pathAsinPart ("/go/" ++ "B09P21T2GC") = some "B09P21T2GC" :=
  ⟨by decide, (c1_path_extraction_amended "B09P21T2GC" (by decide)).1,
   (c1_path_extraction_amended "B09P21T2GC" (by decide)).2.2.1⟩

/-- C2 witness: the amended shape-extraction claim at `B09P21T2GC`. -/
theorem c2_shape_extraction_witness :
    asinTest "B09P21T2GC".data = true ∧
    extractASINFromURL ("/dp/" ++ "B09P21T2GC") = some "B09P21T2GC" ∧
    extractASINFromURL ("asin=" ++ "B09P21T2GC") = some "B09P21T2GC" :=
  ⟨by decide, (c2_shape_extraction_amended "B09P21T2GC" (by decide)).1,
   (c2_shape_extraction_amended "B09P21T2GC" (by decide)).2.2.2.1⟩

/-- C3 (confirmed).  Every URL containing the substring
`amzn.to/468mKVM` extracts to `B09P21T2GC`: the short-link table is
consulted before any pattern, so this holds regardless of any other
content of the URL, including a different embedded valid ASIN. -/
theorem c3_shortlink_priority (url : String)
    (h : containsSub "amzn.to/468mKVM".data url.data = true) :
    extractASINFromURL url = some "B09P21T2GC" :=
  extract_shortlink url h

/-- C3 witness: a URL that contains the short link and also embeds the
different valid ASIN `ZZZZZZZZZZ` in the `/dp/` shape. -/
theorem c3_shortlink_priority_witness :
    containsSub "amzn.to/468mKVM".data "https://amzn.to/468mKVM?u=/dp/ZZZZZZZZZZ".data = true ∧
    extractASINFromURL "https://amzn.to/468mKVM?u=/dp/ZZZZZZZZZZ" = some "B09P21T2GC" :=
  ⟨by decide, c3_shortlink_priority _ (by decide)⟩

/-- C4 witness: a 404 for the bare path `/` and a 200 for the direct
ASIN path, both from the amended theorem. -/
theorem c4_status_witness :
    handlerGo ⟨none, none, none⟩ ⟨.transportError, fun _ => .transportError⟩ ⟨none, "/"⟩ =
      some ⟨404, "text/html", generateErrorHTMLGo⟩ ∧
    (∃ b, handlerGo ⟨none, none, none⟩ ⟨.transportError, fun _ => .transportError⟩
      ⟨none, "/B09P21T2GC"⟩ = some ⟨200, "text/html", b⟩) :=
  ⟨(c4_status_amended ⟨none, none, none⟩ ⟨.transportError, fun _ => .transportError⟩
      .transportError ⟨none, "/"⟩).1 rfl,
   (c4_status_amended ⟨none, none, none⟩ ⟨.transportError, fun _ => .transportError⟩
      .transportError ⟨none, "/B09P21T2GC"⟩).2.1 "B09P21T2GC" rfl⟩

/-- C5 witness: a body consisting of the block marker `Robot Check`. -/
theorem c5_blocked_fallback_witness :
    blockedBody "Robot Check" = true ∧
    fetchAmazonProductScraping "B09P21T2GC"
        (.gotBody "Robot Check" ⟨"T", "I", "P", false⟩) =
      .ok { title := "Amazon Product " ++ "B09P21T2GC"
            image := "https://images-na.ssl-images-amazon.com/images/P/" ++ "B09P21T2GC" ++
              ".01._SL1500_.jpg"
            price := ""
            asin := "B09P21T2GC" } :=
  ⟨by decide, c5_blocked_fallback "B09P21T2GC" "Robot Check" ⟨"T", "I", "P", false⟩ (by decide)⟩

/-- C6 witness: an empty PA-API response still yields a populated record
with an empty, non-synthesized price. -/
theorem c6_record_population_witness :
    (parsePAAPI5Response ⟨[], none, []⟩ "B09P21T2GC").title ≠ "" ∧
    (parsePAAPI5Response ⟨[], none, []⟩ "B09P21T2GC").price = "" :=
  ⟨(c6_record_population ⟨[], none, []⟩ "B09P21T2GC" "" ⟨"", "", "", false⟩
      .transportError).1.2.1,
   (c6_record_population ⟨[], none, []⟩ "B09P21T2GC" "" ⟨"", "", "", false⟩
      .transportError).1.2.2.2.1 rfl⟩

/-- C7 witness: a 200 response with missing credentials, and a 200
response when credentials are present but the PA-API call times out. -/
theorem c7_strategy_fallthrough_witness :
    (∃ b, handlerGo ⟨none, none, none⟩
        ⟨.transportError, fun _ => .gotBody "" ⟨"", "", "", false⟩⟩
        ⟨none, "/B09P21T2GC"⟩ = some ⟨200, "text/html", b⟩) ∧
    (∃ b, handlerGo ⟨some "AK", some "SK", none⟩
        ⟨.timeout, fun _ => .gotBody "" ⟨"", "", "", false⟩⟩
        ⟨none, "/B09P21T2GC"⟩ = some ⟨200, "text/html", b⟩) :=
  ⟨((c7_strategy_fallthrough ⟨none, none, none⟩
      ⟨.transportError, fun _ => .gotBody "" ⟨"", "", "", false⟩⟩
      ⟨none, "/B09P21T2GC"⟩ "B09P21T2GC" rfl).1 (by decide)).2,
   ((c7_strategy_fallthrough ⟨some "AK", some "SK", none⟩
      ⟨.timeout, fun _ => .gotBody "" ⟨"", "", "", false⟩⟩
      ⟨none, "/B09P21T2GC"⟩ "B09P21T2GC" rfl).2 (by decide) rfl).2⟩

/-- C8 witness: with missing credentials the first scrape resolves the
generic fallback record and the handler renders exactly that record. -/
theorem c8_no_retry_witness :
    handlerGo ⟨none, none, none⟩
      ⟨.transportError, fun _ => .gotBody "" ⟨"", "", "", false⟩⟩
      ⟨none, "/B09P21T2GC"⟩ =
      some (ok200 (generateHTMLGo ⟨none, none, none⟩ (scrapeFallbackRecord "B09P21T2GC")
        "B09P21T2GC")) :=
  (c8_no_retry_amended ⟨none, none, none⟩
      ⟨.transportError, fun _ => .gotBody "" ⟨"", "", "", false⟩⟩
      (.gotBody "" ⟨"", "", "", false⟩) ⟨none, "/B09P21T2GC"⟩ ⟨none, "/go/B09P21T2GC"⟩
      "B09P21T2GC" (scrapeFallbackRecord "B09P21T2GC")
      rfl (by decide) rfl).1 rfl

end Cloaker
